import Mathlib

/-
Verification of the tagging CLI (metaflow/plugins/tagging_cli.py) and the
airflow export CLI (metaflow/plugins/airflow/airflow_cli.py).

The external client (namespace selection, Flow/Run lookup, tag storage) is
modelled by an environment record of lookup oracles; the CLI functions are
shallowly embedded as pure functions returning a result together with the
ordered list of client-side effects they performed.
-/

namespace Metaflow

/-- Python percent-s interpolation of an optional string: None prints as "None". -/
def pyStr : Option String → String
  | none => "None"
  | some s => s

/-- Python str.startswith by code points. -/
def startswith (s pre : String) : Bool :=
  pre.data.isPrefixOf s.data

/-- Embedding of zip_longest from tagging_cli.py: extend the shorter list with
None until lengths agree, then zip. -/
def zip_longest (list1 list2 : List String) : List (Option String × Option String) :=
  (list1.map some ++ List.replicate (list2.length - list1.length) none).zip
    (list2.map some ++ List.replicate (list1.length - list2.length) none)

/-- Lexicographic code-point comparison of character lists, as Python compares strings. -/
def lexLe : List Char → List Char → Bool
  | [], _ => true
  | _ :: _, [] => false
  | a :: as, b :: bs => if a < b then true else if b < a then false else lexLe as bs

/-- String comparison used by the Python built-in sorted. -/
def strLe (a b : String) : Bool := lexLe a.data b.data

/-- Insertion of a string into an ascending list. -/
def insort (x : String) : List String → List String
  | [] => [x]
  | y :: ys => if strLe x y then x :: y :: ys else y :: insort x ys

/-- Embedding of the Python built-in sorted on strings: stable ascending sort. -/
def sorted (l : List String) : List String := l.foldr insort []

/-- Left header cell of the tag table. -/
def stag_header : String := "*system tags (immutable)*"

/-- Right header cell of the tag table. -/
def ctag_header : String := "*customized tags*"

/-- Width of the system-tag column: max length over the tags and the header cell. -/
def stag_width (system_tags : List String) : Nat :=
  ((system_tags ++ [stag_header]).map String.length).foldl max 0

/-- Width of the customized-tag column: max length over the tags and the header cell. -/
def ctag_width (customized_tags : List String) : Nat :=
  ((customized_tags ++ [ctag_header]).map String.length).foldl max 0

/-- A run of n spaces. -/
def spaces (n : Nat) : String := String.mk (List.replicate n ' ')

/-- A run of n dashes. -/
def dashes (n : Nat) : String := String.mk (List.replicate n '-')

/-- Python string formatting of a field with a minimum width: left-justify,
padding with spaces on the right. -/
def ljust (s : String) (w : Nat) : String := s ++ spaces (w - s.length)

/-- One data row of the tag table: an optional system tag and optional
customized tag, a missing entry rendered as the empty string, the first
column left-justified to the system column width, two spaces between the
columns, the second column unpadded. -/
def tag_row (w : Nat) (p : Option String × Option String) : String :=
  ljust (p.1.getD "") w ++ "  " ++ p.2.getD ""

/-- The list of lines built by format_tags before joining with newlines:
a header line (first field padded to the system width plus two), a dash
separator line, then one row per index of the zipped sorted tag lists. -/
def format_tags_lines (system_tags customized_tags : List String) : List String :=
  (ljust stag_header (stag_width system_tags + 2) ++ "  " ++ ctag_header) ::
  (ljust (dashes (stag_width system_tags)) (stag_width system_tags) ++ "  " ++
    dashes (ctag_width customized_tags)) ::
  (zip_longest (sorted system_tags) (sorted customized_tags)).map
    (tag_row (stag_width system_tags))

/-- Embedding of format_tags: the lines joined with newlines. -/
def format_tags (system_tags customized_tags : List String) : String :=
  String.intercalate "\n" (format_tags_lines system_tags customized_tags)

/-- Row shape as the specification describes it. Modelled from the spec: both
columns padded to their column width (the max string length in the column,
header included). Kept for comparison with the rows format_tags emits. -/
def format_tags_row_claimed (S U : List String) (i : Nat) : String :=
  ljust ((sorted S).getD i "") (stag_width S) ++ "  " ++
    ljust ((sorted U).getD i "") (ctag_width U)

/-- Embedding of is_prod_token: a non-None token starting with the reserved
production prefix string. -/
def is_prod_token : Option String → Bool
  | none => false
  | some t => startswith t "production:"

/-- Outcome of a Flow or Run lookup under a given active namespace. -/
inductive LookupOutcome
  | found
  | notFound
  | nsMismatch
  deriving DecidableEq, Repr

/-- Oracles for the external client, fixed for one CLI invocation: the flow
name, the Flow lookup outcome per active namespace, the id of the flow's
latest run, the Run lookup outcome per active namespace for the addressed
run, and that run's tag sets as seen unrestricted. -/
structure ClientEnv where
  flowName : String
  flowLookup : Option String → LookupOutcome
  latestRunId : String
  runLookup : Option String → LookupOutcome
  runTags : List String
  runSystemTags : List String

/-- Client-side effects, recorded in order of occurrence. -/
inductive Effect
  | nsSelect (ns : Option String)
  | flowQuery
  | runQuery
  | runsQuery
  deriving DecidableEq, Repr

/-- Errors escaping a tagging command: a CommandException with its message, or
an uncaught client exception propagating unclassified. -/
inductive TagCliError
  | commandException (msg : String)
  | metaflowNotFound
  | metaflowNamespaceMismatch
  deriving DecidableEq, Repr

/-- The resolved run client handle: its full tag set and its system tag set. -/
structure RunClient where
  tags : List String
  system_tags : List String
  deriving DecidableEq, Repr

/-- Message of the mutation-forbidden error. -/
def mutation_forbidden_msg : String :=
  "Modifying a scheduled run\x27s tags is currently not allowed."

/-- Message when the flow exists in no namespace. -/
def flow_not_found_msg (flow_name : String) : String :=
  "Flow *" ++ flow_name ++ "* does not exist in any namespace.\n" ++
  "Please run the flow before tagging."

/-- Message when the flow exists only outside the requested namespace. -/
def flow_ns_mismatch_msg (flow_name : String) (user_namespace : Option String) : String :=
  "Flow *" ++ flow_name ++ "* does not belong to namespace *" ++ pyStr user_namespace ++
  "*.\nCheck typos if you used option --namespace."

/-- Message raised by check_run_id when no run id was supplied: it carries the
flow name, the id of the flow's latest run, and the active namespace. -/
def check_run_id_msg (user_namespace : Option String) (flow_name latest_run_id : String) :
    String :=
  "Please run with --run-id: tag add --run-id TEXT YOUR-TAGS\n" ++
  "Flow " ++ flow_name ++ "\x27s latest run has run-id *" ++ latest_run_id ++
  "* under namespace " ++ pyStr user_namespace

/-- Message when the run exists in no namespace. -/
def run_not_found_msg (run_name : String) : String :=
  "Run *" ++ run_name ++ "* does not exist in any namespace.\n" ++
  "Please check your --run-id."

/-- Message when the run exists only outside the requested namespace: lists the
given user tags as alternative namespace values when there are any. -/
def run_ns_mismatch_msg (run_name : String) (user_namespace : Option String)
    (user_tags : List String) : String :=
  "Run *" ++ run_name ++ "* does not belong to namespace *" ++ pyStr user_namespace ++
  "*.\n" ++
  (if user_tags.isEmpty then "" else
    "You can choose any of the following tags associated with *" ++ run_name ++
    "* to use with option *--namespace*\n" ++
    String.intercalate "\n" (user_tags.map (fun tag => "\t*" ++ tag ++ "*")))

/-- Embedding of obtain_metaflow_run_client: the production-namespace gate,
the Flow lookup with its two classified failures, the check_run_id gate, the
Run lookup with its classified failures, and the unrestricted re-lookup on a
namespace mismatch with the production-tag gate and the user-tag suggestion
message. Returns the result with the ordered client effects performed. -/
def obtain_metaflow_run_client (env : ClientEnv) (run_id : Option String)
    (user_namespace : Option String) : Except TagCliError RunClient × List Effect :=
  if is_prod_token user_namespace then
    (.error (.commandException mutation_forbidden_msg), [])
  else
    match env.flowLookup user_namespace with
    | .notFound =>
        (.error (.commandException (flow_not_found_msg env.flowName)),
         [.nsSelect user_namespace, .flowQuery])
    | .nsMismatch =>
        (.error (.commandException (flow_ns_mismatch_msg env.flowName user_namespace)),
         [.nsSelect user_namespace, .flowQuery])
    | .found =>
        match run_id with
        | none =>
            (.error (.commandException
                (check_run_id_msg user_namespace env.flowName env.latestRunId)),
             [.nsSelect user_namespace, .flowQuery, .flowQuery])
        | some rid =>
            match env.runLookup user_namespace with
            | .found =>
                (.ok ⟨env.runTags, env.runSystemTags⟩,
                 [.nsSelect user_namespace, .flowQuery, .nsSelect user_namespace, .runQuery])
            | .notFound =>
                (.error (.commandException (run_not_found_msg (env.flowName ++ "/" ++ rid))),
                 [.nsSelect user_namespace, .flowQuery, .nsSelect user_namespace, .runQuery])
            | .nsMismatch =>
                match env.runLookup none with
                | .notFound =>
                    (.error .metaflowNotFound,
                     [.nsSelect user_namespace, .flowQuery, .nsSelect user_namespace,
                      .runQuery, .nsSelect none, .runQuery])
                | .nsMismatch =>
                    (.error .metaflowNamespaceMismatch,
                     [.nsSelect user_namespace, .flowQuery, .nsSelect user_namespace,
                      .runQuery, .nsSelect none, .runQuery])
                | .found =>
                    if env.runTags.any (fun tag => is_prod_token (some tag)) then
                      (.error (.commandException mutation_forbidden_msg),
                       [.nsSelect user_namespace, .flowQuery, .nsSelect user_namespace,
                        .runQuery, .nsSelect none, .runQuery])
                    else
                      (.error (.commandException
                          (run_ns_mismatch_msg (env.flowName ++ "/" ++ rid) user_namespace
                            (env.runTags.filter (fun tag => startswith tag "user:")))),
                       [.nsSelect user_namespace, .flowQuery, .nsSelect user_namespace,
                        .runQuery, .nsSelect none, .runQuery])

/-- Tag sets of one run enumerated by the listing aggregation path. -/
structure RunData where
  tags : List String
  system_tags : List String
  deriving DecidableEq, Repr

/-- Environment of the tag list command: the client oracles for the single-run
path, the runs visible per namespace for the aggregation path, and the
caller's resolved identity. -/
structure ListEnv where
  client : ClientEnv
  runsInNs : Option String → List RunData
  identity : String

/-- Insertion into a Python set represented as a duplicate-free list. -/
def set_insert (a : List String) (x : String) : List String :=
  if a.contains x then a else a ++ [x]

/-- Python set.union on list representations. -/
def set_union (a b : List String) : List String := b.foldl set_insert a

/-- Python set.difference on list representations. -/
def set_diff (a b : List String) : List String := a.filter (fun x => !(b.contains x))

/-- Usage message when none of run-id, all, my-runs was chosen. -/
def no_selector_msg : String :=
  "Please use one of the options --run-id / --all / --my-runs.\n" ++
  "You can run the flow with commands \x27tag list --help\x27 " ++
  "to check the meaning of the three options."

/-- Usage message when both all and my-runs were chosen. -/
def all_and_my_runs_msg : String :=
  "Option --all cannot be used together with --my-runs.\n" ++
  "You can run the flow with commands \x27tag list --help\x27 " ++
  "to check the meaning of the two options."

/-- Embedding of tag_list: the two usage guards, then either the aggregation
path (union of tag sets over the runs visible in the chosen namespace) or the
single-run path through obtain_metaflow_run_client with an unrestricted
namespace, then the table rendering with or without the system column. -/
def tag_list (env : ListEnv) (run_id : Option String)
    (hide_system_tags list_all my_runs : Bool) : Except TagCliError String × List Effect :=
  if run_id.isNone && !list_all && !my_runs then
    (.error (.commandException no_selector_msg), [])
  else if list_all && my_runs then
    (.error (.commandException all_and_my_runs_msg), [])
  else if list_all || my_runs then
    let user_namespace := if my_runs then some env.identity else none
    match env.client.flowLookup user_namespace with
    | .notFound => (.error .metaflowNotFound, [.nsSelect user_namespace, .flowQuery])
    | .nsMismatch =>
        (.error .metaflowNamespaceMismatch, [.nsSelect user_namespace, .flowQuery])
    | .found =>
        let st := (env.runsInNs user_namespace).foldl
          (fun acc run =>
            (set_union acc.1 run.system_tags,
             set_union acc.2 (set_diff run.tags run.system_tags)))
          ([], [])
        let text := if hide_system_tags then format_tags [] st.2 else format_tags st.1 st.2
        (.ok text, [.nsSelect user_namespace, .flowQuery, .runsQuery])
  else
    match obtain_metaflow_run_client env.client run_id none with
    | (.error e, tr) => (.error e, tr)
    | (.ok client, tr) =>
        let system_tags := client.system_tags
        let customized_tags := set_diff client.tags system_tags
        let text := if hide_system_tags then format_tags [] customized_tags
                    else format_tags system_tags customized_tags
        (.ok text, tr)

/-- Python truthiness of an optional string: None and the empty string are falsy. -/
def pyTruthy : Option String → Bool
  | none => false
  | some s => !s.isEmpty

/-- Embedding of VALID_NAME.search: true when some character of the name lies
outside letters, digits, underscore, dash and dot. -/
def valid_name_search (name : String) : Bool :=
  name.data.any (fun c => !(c.isAlpha || c.isDigit || c == '_' || c == '-' || c == '.'))

/-- Environment of the airflow export command: the active project context, the
project-derived DAG name, the flow's own name, and the compiled artifact. -/
structure AirflowEnv where
  projectName : Option String
  projectFlowName : String
  flowName : String
  compiledDag : String

/-- Error message when the name option is used under an active project. -/
def project_name_error : String :=
  "--name is not supported for @projects. Use --branch instead."

/-- Error message for a DAG name with characters outside the allow-list. -/
def invalid_name_error (n : String) : String :=
  "Name \x27" ++ n ++ "\x27 contains invalid characters."

/-- Embedding of resolve_dag_name: under an active project the name option is
forbidden and the project flow name is used; otherwise an explicit name is
validated against the allow-list and defaults to the flow name. -/
def resolve_dag_name (env : AirflowEnv) (name : Option String) :
    Except String (String × Bool) :=
  if pyTruthy env.projectName then
    if pyTruthy name then .error project_name_error
    else .ok (env.projectFlowName, true)
  else
    if pyTruthy name && valid_name_search (name.getD "") then
      .error (invalid_name_error (name.getD ""))
    else .ok ((if pyTruthy name then name.getD "" else env.flowName), false)

/-- Side effects of make_flow, in order of occurrence. -/
inductive AirflowEffect
  | attachDecorators
  | initStepDecorators
  | buildPackage
  | saveData
  deriving DecidableEq, Repr

/-- The arguments of the Airflow constructor that this development tracks. -/
structure AirflowSpec where
  flow_name : String
  is_project : Bool
  file_path : Option String
  deriving DecidableEq, Repr

/-- Embedding of make_flow: decorators are attached and initialized, the
workflow package is built and uploaded via save_data, and only then is the
DAG name resolved; a name-resolution failure surfaces after those effects. -/
def make_flow (env : AirflowEnv) (dag_name : Option String) (file_path : Option String) :
    Except String AirflowSpec × List AirflowEffect :=
  let tr : List AirflowEffect :=
    [.attachDecorators, .initStepDecorators, .buildPackage, .saveData]
  match resolve_dag_name env dag_name with
  | .error e => (.error e, tr)
  | .ok fn => (.ok ⟨fn.1, fn.2, file_path⟩, tr)

/-- Destination of the compiled DAG artifact. -/
inductive OutputAction
  | echoStdout (content : String)
  | s3Put (path content : String)
  | fileWrite (path content : String)
  deriving DecidableEq, Repr

/-- Embedding of the airflow create command: build the flow, compile it, then
route the artifact by the file-path argument alone: none goes to stdout, an
s3 path is uploaded, any other path is written locally (truncating write). -/
def create (env : AirflowEnv) (file_path : Option String) (name : Option String) :
    Except String OutputAction × List AirflowEffect :=
  match make_flow env name file_path with
  | (.error e, tr) => (.error e, tr)
  | (.ok _flow, tr) =>
      let compiled_dag_file := env.compiledDag
      let action : OutputAction :=
        match file_path with
        | none => .echoStdout compiled_dag_file
        | some fp =>
            if startswith fp "s3://" then .s3Put fp compiled_dag_file
            else .fileWrite fp compiled_dag_file
      (.ok action, tr)

/-- Client environment used by concrete witnesses: every lookup under a
namespace restriction reports a mismatch, unrestricted lookups succeed, and
the addressed run carries a production tag next to a user tag. -/
def wClient : ClientEnv :=
  { flowName := "MyFlow"
    flowLookup := fun _ => .found
    latestRunId := "17"
    runLookup := fun ns => match ns with | none => .found | some _ => .nsMismatch
    runTags := ["production:sched-123", "user:bob"]
    runSystemTags := ["production:sched-123"] }

/-- List environment used by concrete witnesses and counterexamples: the flow
is visible everywhere and one run with two user tags is enumerated. -/
def wListEnv : ListEnv :=
  { client :=
      { flowName := "MyFlow"
        flowLookup := fun _ => .found
        latestRunId := "17"
        runLookup := fun _ => .found
        runTags := ["production:sched-123", "user:bob"]
        runSystemTags := ["production:sched-123"] }
    runsInNs := fun _ => [⟨["user:alice", "stage:dev"], []⟩]
    identity := "user:alice" }

/-- Airflow environment with an active project, used by the C4 input. -/
def wProjectEnv : AirflowEnv :=
  { projectName := some "myproject"
    projectFlowName := "myproject.MyFlow"
    flowName := "MyFlow"
    compiledDag := "DAG CONTENT" }

/-- Airflow environment without a project, used by the C8 witness. -/
def wPlainEnv : AirflowEnv :=
  { projectName := none
    projectFlowName := "unused"
    flowName := "MyFlow"
    compiledDag := "DAG CONTENT" }

/-- The zipped padded lists have the length of the longer input. -/
theorem zip_longest_length (l1 l2 : List String) :
    (zip_longest l1 l2).length = max l1.length l2.length := by
  simp [zip_longest, List.length_zip]
  omega

/-- Inserting one string grows the list by one. -/
theorem insort_length (x : String) (l : List String) :
    (insort x l).length = l.length + 1 := by
  induction l with
  | nil => rfl
  | cons y ys ih =>
      by_cases h : strLe x y
      · simp [insort, h]
      · simp [insort, h, ih]

/-- Sorting preserves length. -/
theorem sorted_length (l : List String) : (sorted l).length = l.length := by
  induction l with
  | nil => rfl
  | cons x xs ih =>
      show (insort x (sorted xs)).length = xs.length + 1
      rw [insort_length, ih]

/-- Element access into a list padded with none up to a longer length. -/
theorem pad_getElem? (l : List String) (k i : Nat) (h : i < l.length + k) :
    (l.map some ++ List.replicate k (none : Option String))[i]? = some l[i]? := by
  by_cases hi : i < l.length
  · rw [List.getElem?_append_left (by simpa using hi)]
    simp [List.getElem?_eq_getElem hi]
  · have hle : (l.map some).length ≤ i := by simpa using Nat.not_lt.mp hi
    rw [List.getElem?_append_right hle]
    simp only [List.length_map, List.getElem?_replicate]
    rw [List.getElem?_eq_none (Nat.not_lt.mp hi), if_pos (by omega)]

/-- Element access into a zip when both components are present. -/
theorem zip_getElem?_eq_some {α β : Type} (as : List α) (bs : List β) (i : Nat)
    (a : α) (b : β) (ha : as[i]? = some a) (hb : bs[i]? = some b) :
    (as.zip bs)[i]? = some (a, b) := by
  induction as generalizing bs i with
  | nil => simp at ha
  | cons x xs ih =>
      cases bs with
      | nil => simp at hb
      | cons y ys =>
          cases i with
          | zero =>
              simp only [List.getElem?_cons_zero, Option.some.injEq] at ha hb
              simp [List.zip_cons_cons, ha, hb]
          | succ n =>
              simp only [List.getElem?_cons_succ] at ha hb
              simpa [List.zip_cons_cons] using ih ys n ha hb

/-- Element access into zip_longest below the longer length pairs the two
optional entries at that index. -/
theorem zip_longest_getElem? (l1 l2 : List String) (i : Nat)
    (h : i < max l1.length l2.length) :
    (zip_longest l1 l2)[i]? = some (l1[i]?, l2[i]?) := by
  unfold zip_longest
  exact zip_getElem?_eq_some _ _ i _ _
    (pad_getElem? l1 (l2.length - l1.length) i (by omega))
    (pad_getElem? l2 (l1.length - l2.length) i (by omega))

/-- The table has one header line, one separator line, and one data row per
index of the longer sorted tag list. -/
theorem format_tags_lines_length (S U : List String) :
    (format_tags_lines S U).length = max S.length U.length + 2 := by
  simp [format_tags_lines, zip_longest_length, sorted_length]

/-- C5: for all finite tag sets S and U with different cardinalities,
format_tags returns the newline-join of exactly max of the two sizes plus two
lines (header, dash separator, and one data row per index of the longer sorted
list) and never raises on the size mismatch (the embedding is total). -/
theorem format_tags_line_count (S U : List String) (hS : S.Nodup) (hU : U.Nodup)
    (h : S.length ≠ U.length) :
    format_tags S U = String.intercalate "\n" (format_tags_lines S U) ∧
    (format_tags_lines S U).length = max S.length U.length + 2 :=
  ⟨rfl, format_tags_lines_length S U⟩

/-- C5 witness: the line count at the concrete sets containing b, a and c. -/
theorem format_tags_line_count_witness :
    format_tags ["b", "a"] ["c"] =
      String.intercalate "\n" (format_tags_lines ["b", "a"] ["c"]) ∧
    (format_tags_lines ["b", "a"] ["c"]).length =
      max (["b", "a"] : List String).length (["c"] : List String).length + 2 :=
  format_tags_line_count ["b", "a"] ["c"] (by decide) (by decide) (by decide)

/-- C6 counterexample: the data row that format_tags actually emits differs
from the row the claim describes, because the second column is not padded:
with system tags a and customized tags b, row zero ends with the bare tag b
while the claimed row pads b to the customized-column width. -/
theorem format_tags_second_column_unpadded :
    (format_tags_lines ["a"] ["b"])[2]? ≠ some (format_tags_row_claimed ["a"] ["b"] 0) := by
  decide

/-- C6 amended: the data row at index i pairs the i-th entry of the sorted
system tags with the i-th entry of the sorted customized tags, substituting
the empty string where the index exceeds the shorter sorted list, with no
element dropped or truncated; the first column is left-justified to the max
string length of that column including its fixed header string, while the
second column is emitted unpadded. -/
theorem format_tags_row_pairing (S U : List String) (i : Nat)
    (h : i < max S.length U.length) :
    (format_tags_lines S U)[i + 2]? =
      some (ljust ((sorted S).getD i "") (stag_width S) ++ "  " ++ (sorted U).getD i "") := by
  have hmax : i < max (sorted S).length (sorted U).length := by
    rwa [sorted_length, sorted_length]
  unfold format_tags_lines
  rw [List.getElem?_cons_succ, List.getElem?_cons_succ, List.getElem?_map,
    zip_longest_getElem? _ _ i hmax]
  simp [tag_row, List.getD_eq_getElem?_getD]

/-- C6 witness: the row pairing at index one of the concrete sets containing
b, a and c, where the second sorted list has run out and contributes the
empty string. -/
theorem format_tags_row_pairing_witness :
    (format_tags_lines ["b", "a"] ["c"])[1 + 2]? =
      some (ljust ((sorted ["b", "a"]).getD 1 "") (stag_width ["b", "a"]) ++ "  " ++
        (sorted ["c"]).getD 1 "") :=
  format_tags_row_pairing ["b", "a"] ["c"] 1 (by decide)

/-- C1: when resolution reaches the namespace-mismatch branch (run lookup
under the requested namespace mismatches, the unrestricted re-lookup finds the
run): if the run carries any production-prefixed tag the resolver fails with
the mutation-forbidden error for every requested namespace, and otherwise it
fails with the namespace-mismatch error whose message lists exactly the run's
tags starting with the user prefix as alternative namespace values. -/
theorem obtain_run_ns_mismatch_classification (env : ClientEnv) (rid : String)
    (ns : Option String)
    (hf : env.flowLookup ns = .found)
    (hr : env.runLookup ns = .nsMismatch)
    (hu : env.runLookup none = .found) :
    (env.runTags.any (fun tag => is_prod_token (some tag)) = true →
      (obtain_metaflow_run_client env (some rid) ns).1 =
        .error (.commandException mutation_forbidden_msg)) ∧
    (is_prod_token ns = false →
      env.runTags.any (fun tag => is_prod_token (some tag)) = false →
      (obtain_metaflow_run_client env (some rid) ns).1 =
        .error (.commandException (run_ns_mismatch_msg (env.flowName ++ "/" ++ rid) ns
          (env.runTags.filter (fun tag => startswith tag "user:"))))) := by
  constructor
  · intro hprod
    by_cases hp : is_prod_token ns
    · simp [obtain_metaflow_run_client, hp]
    · simp [obtain_metaflow_run_client, hp, hf, hr, hu, hprod]
  · intro hp hprod
    simp [obtain_metaflow_run_client, hp, hf, hr, hu, hprod]

/-- C1 witness: the concrete client whose run lies outside the requested
namespace alice and carries a production tag yields the mutation-forbidden
error. -/
theorem obtain_run_ns_mismatch_classification_witness :
    (obtain_metaflow_run_client wClient (some "1") (some "alice")).1 =
      .error (.commandException mutation_forbidden_msg) :=
  (obtain_run_ns_mismatch_classification wClient "1" (some "alice") rfl rfl rfl).1 (by decide)

/-- C2: a requested namespace carrying the reserved production prefix makes
the resolver fail with the mutation-forbidden error before any namespace
selection or Flow or Run client call: the effect trace is empty. -/
theorem obtain_prod_namespace_fails_before_lookup (env : ClientEnv)
    (run_id ns : Option String) (h : is_prod_token ns = true) :
    obtain_metaflow_run_client env run_id ns =
      (.error (.commandException mutation_forbidden_msg), []) := by
  simp [obtain_metaflow_run_client, h]

/-- C2 witness: the production-prefixed namespace fails with no effects at the
concrete client. -/
theorem obtain_prod_namespace_fails_before_lookup_witness :
    obtain_metaflow_run_client wClient none (some "production:branch") =
      (.error (.commandException mutation_forbidden_msg), []) :=
  obtain_prod_namespace_fails_before_lookup wClient none (some "production:branch") rfl

/-- C7: when the flow-existence check succeeds and no run id was supplied, the
resolver fails with the must-supply-run-id error whose message carries the
flow's latest run identifier and the active namespace; the absence of a run id
is always an error and the suggested run is never auto-selected. -/
theorem obtain_missing_run_id_errors (env : ClientEnv) (ns : Option String)
    (hp : is_prod_token ns = false) (hf : env.flowLookup ns = .found) :
    (obtain_metaflow_run_client env none ns).1 =
      .error (.commandException (check_run_id_msg ns env.flowName env.latestRunId)) ∧
    check_run_id_msg ns env.flowName env.latestRunId =
      "Please run with --run-id: tag add --run-id TEXT YOUR-TAGS\n" ++
      "Flow " ++ env.flowName ++ "\x27s latest run has run-id *" ++ env.latestRunId ++
      "* under namespace " ++ pyStr ns :=
  ⟨by simp [obtain_metaflow_run_client, hp, hf], rfl⟩

/-- C7 witness: the missing run id error at the concrete client under the
namespace alice. -/
theorem obtain_missing_run_id_errors_witness :
    (obtain_metaflow_run_client wClient none (some "alice")).1 =
      .error (.commandException
        (check_run_id_msg (some "alice") wClient.flowName wClient.latestRunId)) ∧
    check_run_id_msg (some "alice") wClient.flowName wClient.latestRunId =
      "Please run with --run-id: tag add --run-id TEXT YOUR-TAGS\n" ++
      "Flow " ++ wClient.flowName ++ "\x27s latest run has run-id *" ++
      wClient.latestRunId ++ "* under namespace " ++ pyStr (some "alice") :=
  obtain_missing_run_id_errors wClient (some "alice") rfl rfl

/-- C3 counterexample: choosing both a run id and the all flag is not rejected
as a usage error: the command proceeds on the aggregation path and succeeds at
this concrete input, contradicting the claim that any invocation choosing more
than one selector raises a usage error before any lookup. -/
theorem tag_list_run_id_with_all_accepted :
    (tag_list wListEnv (some "7") false true false).1 =
      .ok (format_tags [] ["user:alice", "stage:dev"]) := by
  rfl

/-- C3 amended: choosing none of the three selectors raises a usage error
before any client call (empty effect trace), and choosing both the all flag
and the my-runs flag likewise raises a usage error before any client call; a
run id combined with one of the flags is not rejected. -/
theorem tag_list_usage_guards (env : ListEnv) (rid : Option String) (hst : Bool) :
    tag_list env none hst false false =
      (.error (.commandException no_selector_msg), []) ∧
    tag_list env rid hst true true =
      (.error (.commandException all_and_my_runs_msg), []) := by
  constructor
  · rfl
  · simp [tag_list]

/-- C9: with the all flag set and the my-runs flag clear, the outcome and the
effect trace of tag list are identical for every value of the run id argument,
none included: the run id is silently ignored on the aggregation path. -/
theorem tag_list_all_ignores_run_id (env : ListEnv) (rid1 rid2 : Option String)
    (hst : Bool) :
    tag_list env rid1 hst true false = tag_list env rid2 hst true false := by
  simp [tag_list]

/-- C10: is_prod_token of none is false, and the single-run path of tag list,
which passes the unrestricted namespace to the resolver, bypasses the
production-prefix gate and reaches the run's tags for listing whenever the
unrestricted flow and run lookups succeed, production-tagged runs included. -/
theorem tag_list_single_run_bypasses_prod_gate (env : ListEnv) (rid : String)
    (hf : env.client.flowLookup none = .found)
    (hr : env.client.runLookup none = .found) :
    is_prod_token none = false ∧
    tag_list env (some rid) false false false =
      (.ok (format_tags env.client.runSystemTags
          (set_diff env.client.runTags env.client.runSystemTags)),
       [.nsSelect none, .flowQuery, .nsSelect none, .runQuery]) := by
  refine ⟨rfl, ?_⟩
  simp [tag_list, obtain_metaflow_run_client, is_prod_token, hf, hr]

/-- C10 witness: the single-run path lists the tags of a production-tagged run
at the concrete environment. -/
theorem tag_list_single_run_bypasses_prod_gate_witness :
    is_prod_token none = false ∧
    tag_list wListEnv (some "42") false false false =
      (.ok (format_tags wListEnv.client.runSystemTags
          (set_diff wListEnv.client.runTags wListEnv.client.runSystemTags)),
       [.nsSelect none, .flowQuery, .nsSelect none, .runQuery]) :=
  tag_list_single_run_bypasses_prod_gate wListEnv "42" rfl rfl

/-- C4 counterexample: with an active project and an explicit name, make_flow
does fail with the not-supported-for-projects error, but the effect trace
already contains the package build and the datastore upload: the failure does
not occur before packaging, contradicting the claim. -/
theorem make_flow_project_name_after_packaging_input :
    (make_flow wProjectEnv (some "foo") none).1 = .error project_name_error ∧
    AirflowEffect.buildPackage ∈ (make_flow wProjectEnv (some "foo") none).2 ∧
    AirflowEffect.saveData ∈ (make_flow wProjectEnv (some "foo") none).2 := by
  refine ⟨rfl, ?_, ?_⟩ <;> decide

/-- C4 amended: with an active project context and an explicit name supplied,
the command fails with the not-supported-for-projects error, but only after
the workflow package has been built and uploaded to the datastore: the effect
trace is exactly decorator attachment, decorator initialization, package
build, datastore upload. -/
theorem make_flow_project_name_fails_after_packaging (env : AirflowEnv)
    (name fp : Option String)
    (hproj : pyTruthy env.projectName = true) (hname : pyTruthy name = true) :
    make_flow env name fp =
      (.error project_name_error,
       [.attachDecorators, .initStepDecorators, .buildPackage, .saveData]) := by
  simp [make_flow, resolve_dag_name, hproj, hname]

/-- C4 amended witness: the concrete project environment with the explicit
name foo. -/
theorem make_flow_project_name_fails_after_packaging_witness :
    make_flow wProjectEnv (some "foo") none =
      (.error project_name_error,
       [.attachDecorators, .initStepDecorators, .buildPackage, .saveData]) :=
  make_flow_project_name_fails_after_packaging wProjectEnv (some "foo") none rfl rfl

/-- C8: for every invocation of the create command whose DAG name resolution
succeeds, the destination of the compiled artifact is determined solely by the
file-path argument: no path prints to stdout, a path with the object-storage
scheme uploads there, and any other path is written to the local file
(truncating write). -/
theorem create_output_routing (env : AirflowEnv) (name fp : Option String)
    (g : String × Bool) (hok : resolve_dag_name env name = .ok g) :
    (fp = none → (create env fp name).1 = .ok (.echoStdout env.compiledDag)) ∧
    (∀ p, fp = some p → startswith p "s3://" = true →
      (create env fp name).1 = .ok (.s3Put p env.compiledDag)) ∧
    (∀ p, fp = some p → startswith p "s3://" = false →
      (create env fp name).1 = .ok (.fileWrite p env.compiledDag)) := by
  refine ⟨?_, ?_, ?_⟩
  · rintro rfl
    simp [create, make_flow, hok]
  · rintro p rfl hs
    simp [create, make_flow, hok, hs]
  · rintro p rfl hs
    simp [create, make_flow, hok, hs]

/-- C8 witness: an object-storage path at the concrete plain environment is
routed to the object-storage upload. -/
theorem create_output_routing_witness :
    (create wPlainEnv (some "s3://bucket/dag.py") none).1 =
      .ok (.s3Put "s3://bucket/dag.py" wPlainEnv.compiledDag) :=
  ((create_output_routing wPlainEnv none (some "s3://bucket/dag.py")
      ("MyFlow", false) rfl).2.1) "s3://bucket/dag.py" rfl rfl

end Metaflow
